import Mathlib

/-!
Verification of the metrics instrumentation and cost-accounting layer of the
AI customer-support backend (the module `monitoring/metrics_exporter.py`).

The embedding models:

* IEEE-754 binary64 arithmetic (round to nearest, ties to even, 53-bit
  significand, unbounded exponent — every value reached by the cost model is
  far from overflow and from the subnormal range) over exact dyadic
  fractions, with all rounding computed in integer arithmetic;
* the cost model `calculate_llm_cost` with its static nested price table,
  the per-million rates pre-divided by 1,000,000 in binary64;
* the Prometheus-style registry state: counters and histograms as pointwise
  maps from label tuples to values, gauges as plain values;
* the three instrumentation wrappers (`track_ticket_processing`,
  `track_llm_call`, `track_http_request`) as state-transition functions on
  the registry, taking the wrapped operation outcome as an `Except` value
  (`Except.error` models a raised exception);
* the periodic budget/savings refresh `update_cost_budget_tracking`.
-/

set_option maxRecDepth 100000

namespace MetricsExporter

/-! ## Binary64 value model -/

/-- A binary64 value, represented exactly as a signed fraction
`num / den`; every value produced by rounding is dyadic. -/
structure Frac where
  num : ℤ
  den : ℕ
  deriving DecidableEq

/-- The exact rational value of a `Frac`. -/
def Frac.toRat (f : Frac) : ℚ := (f.num : ℚ) / (f.den : ℚ)

/-- Fuel-bounded floor of log base 2 on naturals (structural recursion so
that both the kernel and `simp` can evaluate it); `nlog2` supplies fuel `n`,
which dominates the recursion depth. -/
def log2fuel : Nat → Nat → Nat
  | 0, _ => 0
  | fuel + 1, n => if n < 2 then 0 else log2fuel fuel (n / 2) + 1

/-- Floor of log base 2 (0 at 0). -/
def nlog2 (n : Nat) : Nat := log2fuel n n

/-- Decides `2 ^ e ≤ a / b` for naturals `a`, `b` with `b ≠ 0`, by clearing
denominators. -/
def pow2le (e : ℤ) (a b : ℕ) : Bool :=
  match e with
  | .ofNat n => decide (b * 2 ^ n ≤ a)
  | .negSucc n => decide (b ≤ a * 2 ^ (n + 1))

/-- For `0 < a / b`, the exponent `e` with `2 ^ e ≤ a / b < 2 ^ (e + 1)`. -/
def posExpN (a b : ℕ) : ℤ :=
  let base : ℤ := (nlog2 a : ℤ) - (nlog2 b : ℤ)
  if pow2le base a b then base else base - 1

/-- Round the fraction `num / den` to the nearest natural, ties to even. -/
def roundHalfEvenN (num den : ℕ) : ℕ :=
  let q := num / den
  let r := num % den
  if 2 * r < den then q
  else if den < 2 * r then q + 1
  else if q % 2 = 0 then q else q + 1

/-- Round the positive fraction `a / b` to 53 significant binary digits,
round to nearest, ties to even: the fraction is scaled by `2 ^ (52 - e)`
into the mantissa range, rounded to a nearest integer mantissa, and the
result carries the exponent `e - 52` in its numerator or denominator. -/
def flFPos (a b : ℕ) : Frac :=
  match 52 - posExpN a b with
  | .ofNat n => ⟨Int.ofNat (roundHalfEvenN (a * 2 ^ n) b), 2 ^ n⟩
  | .negSucc n =>
      ⟨Int.ofNat (roundHalfEvenN a (b * 2 ^ (n + 1)) * 2 ^ (n + 1)), 1⟩

/-- The binary64 rounding function on exact fractions. -/
def flF (x : Frac) : Frac :=
  if x.num = 0 then ⟨0, 1⟩
  else if 0 < x.num then flFPos x.num.toNat x.den
  else
    let p := flFPos (-x.num).toNat x.den
    ⟨-p.num, p.den⟩

/-- Binary64 addition: exact sum, then rounding. -/
def fadd (x y : Frac) : Frac :=
  flF ⟨x.num * (y.den : ℤ) + y.num * (x.den : ℤ), x.den * y.den⟩

/-- Binary64 multiplication: exact product, then rounding. -/
def fmul (x y : Frac) : Frac :=
  flF ⟨x.num * y.num, x.den * y.den⟩

/-- Binary64 division: exact quotient, then rounding (used only with
positive divisors, as in the price table). -/
def fdiv (x y : Frac) : Frac :=
  if 0 ≤ y.num then flF ⟨x.num * (y.den : ℤ), x.den * y.num.toNat⟩
  else flF ⟨-(x.num * (y.den : ℤ)), x.den * (-y.num).toNat⟩

/-- Conversion of a nonnegative integer to binary64 (what the promotion of
a Python int to float performs inside the cost multiply). -/
def fofNat (n : ℕ) : Frac := flF ⟨(n : ℤ), 1⟩

/-! ## Cost model (`calculate_llm_cost`) -/

/-- Per-token input/output dollar rates, one entry of the price table. -/
structure Rates where
  input : Frac
  output : Frac
  deriving DecidableEq

/-- The static nested price table of `calculate_llm_cost`, with the
published per-million-token dollar rates pre-divided by 1,000,000 in
binary64, exactly as the source computes `3.0 / 1_000_000` and so on
(the literals 0.25, 1.25, 0.5, 1.5 are exactly representable in binary64).
Returns `none` when the (provider, model) pair is absent. -/
def pricing (provider model : String) : Option Rates :=
  if provider = "anthropic" then
    if model = "claude-sonnet-4" then
      some ⟨fdiv ⟨3, 1⟩ ⟨1000000, 1⟩, fdiv ⟨15, 1⟩ ⟨1000000, 1⟩⟩
    else if model = "claude-haiku" then
      some ⟨fdiv ⟨1, 4⟩ ⟨1000000, 1⟩, fdiv ⟨5, 4⟩ ⟨1000000, 1⟩⟩
    else none
  else if provider = "openai" then
    if model = "gpt-4" then
      some ⟨fdiv ⟨30, 1⟩ ⟨1000000, 1⟩, fdiv ⟨60, 1⟩ ⟨1000000, 1⟩⟩
    else if model = "gpt-3.5-turbo" then
      some ⟨fdiv ⟨1, 2⟩ ⟨1000000, 1⟩, fdiv ⟨3, 2⟩ ⟨1000000, 1⟩⟩
    else none
  else none

/-- The cost helper: looks up the price table; unknown (provider, model)
pairs yield 0.0 after a logged warning; otherwise returns
`input_tokens * rates[input] + output_tokens * rates[output]` computed in
binary64, the token counts being converted to binary64 first. The function
is total: no input makes it raise. -/
def calculate_llm_cost (provider model : String)
    (input_tokens output_tokens : ℕ) : Frac :=
  match pricing provider model with
  | none => ⟨0, 1⟩
  | some rates =>
      fadd (fmul (fofNat input_tokens) rates.input)
           (fmul (fofNat output_tokens) rates.output)

/-! ## Collaborator data (duck-typed mappings of the source, §6 of the spec:
optional fields model optional dictionary keys) -/

/-- A raised Python exception: its dynamic type name (what
`type(e).__name__` yields) and its message. -/
structure PyExc where
  typeName : String
  message : String
  deriving DecidableEq

/-- A ticket mapping: the wrapper reads the keys `category` and `channel`,
each possibly absent. -/
structure Ticket where
  category : Option String
  channel : Option String

/-- A ticket-processing result mapping with the optional keys the wrapper
inspects. -/
structure TicketResult where
  auto_resolved : Option Bool
  confidence : Option ℚ
  escalated : Option Bool
  escalation_reason : Option String

/-- The `usage` sub-mapping of an LLM result. -/
structure Usage where
  input_tokens : Option ℕ
  output_tokens : Option ℕ

/-- An LLM call result mapping: a response payload and an optional `usage`
sub-mapping. -/
structure LLMResult where
  response : String
  usage : Option Usage

/-- An HTTP request: the fields the wrapper reads. -/
structure Request where
  method : String
  path : String

/-- An HTTP response: a status code and a body. -/
structure HTTPResponse where
  status_code : ℕ
  body : String
  deriving DecidableEq

/-! ## Registry state -/

/-- Increment of a labeled counter: adds `v` to the time series at label
combination `l`, leaving every other label combination unchanged. -/
def cinc {L : Type} [DecidableEq L] (f : L → ℚ) (l : L) (v : ℚ) : L → ℚ :=
  fun x => if x = l then f x + v else f x

/-- Observation into a labeled histogram, modeled as the per-label list of
observed values (bucket counts, sum and count are derived views of it). -/
def hobserve {L : Type} [DecidableEq L] (f : L → List ℚ) (l : L) (v : ℚ) :
    L → List ℚ :=
  fun x => if x = l then f x ++ [v] else f x

/-- Set of a labeled gauge: the time series at `l` takes the value `v`. -/
def gset {L : Type} [DecidableEq L] (f : L → ℚ) (l : L) (v : ℚ) : L → ℚ :=
  fun x => if x = l then v else f x

/-- A finite run of increments against one counter, applied in order
(modelled from the spec: the counter data model of §3 — the value of a
time series is the running sum of the increments applied to it). -/
def runIncs {L : Type} [DecidableEq L] (f : L → ℚ) (incs : List (L × ℚ)) :
    L → ℚ :=
  incs.foldl (fun g p => cinc g p.1 p.2) f

/-- The mutable state of the metric registry: one field per instrument the
verified claims touch, keyed by that instrument's label tuple. -/
structure Registry where
  tickets_processed_total : String × String × String → ℚ
  tickets_resolved_auto_total : String × String → ℚ
  tickets_escalated_total : String × String → ℚ
  http_requests_total : String × String × ℕ → ℚ
  llm_api_requests_total : String × String × String → ℚ
  llm_api_errors_total : String × String → ℚ
  llm_tokens_total : String × String × String → ℚ
  llm_api_cost_dollars : String × String → ℚ
  response_duration_milliseconds : List ℚ
  llm_response_duration_seconds : String × String → List ℚ
  cost_budget_monthly : String → ℚ
  support_agent_cost_savings_dollars : ℚ
  monthly_cost_savings_dollars : ℚ

/-- The registry at process start: every counter at zero, every histogram
empty, every gauge at zero. -/
def Registry.init : Registry where
  tickets_processed_total := fun _ => 0
  tickets_resolved_auto_total := fun _ => 0
  tickets_escalated_total := fun _ => 0
  http_requests_total := fun _ => 0
  llm_api_requests_total := fun _ => 0
  llm_api_errors_total := fun _ => 0
  llm_tokens_total := fun _ => 0
  llm_api_cost_dollars := fun _ => 0
  response_duration_milliseconds := []
  llm_response_duration_seconds := fun _ => []
  cost_budget_monthly := fun _ => 0
  support_agent_cost_savings_dollars := 0
  monthly_cost_savings_dollars := 0

/-! ## Instrumentation wrappers.

Each wrapper is modeled as a state-transition function: it receives the
outcome of the wrapped operation (`Except.ok` a result, `Except.error` a
raised exception), the elapsed wall-clock duration its timing code
measured, and the registry before the call, and yields what the wrapper
returns (or re-raises) together with the registry after the call. -/

/-- Tier classification of a confidence value in `track_ticket_processing`:
`high` above 0.85, else `medium` above 0.70, else `low` (the comparisons
are exact: no binary64 value lies strictly between the rational 0.85 and
the binary64 reading of the literal 0.85, and likewise for 0.70, so the
rational comparison agrees with the float comparison of the source on
every float input). -/
def confidence_tier (confidence : ℚ) : String :=
  if confidence > 0.85 then "high"
  else if confidence > 0.70 then "medium"
  else "low"

/-- The ticket-processing wrapper. Label sources: `category` and `channel`
from the ticket with defaults `general_inquiry` and `web`, `environment`
from the keyword arguments with default `production`. On success it
observes the duration, increments the processed counter, then exactly one
of: the auto-resolved counter (key `auto_resolved` truthy, tier from the
`confidence` key, default 0), the escalated counter (else-if on key
`escalated`, reason from key `escalation_reason`, default `unknown`), or
neither. On failure it logs and re-raises, touching nothing. -/
def track_ticket_processing (ticket : Ticket) (environment : Option String)
    (outcome : Except PyExc TicketResult) (duration_ms : ℚ) (s : Registry) :
    Except PyExc TicketResult × Registry :=
  let category := ticket.category.getD "general_inquiry"
  let channel := ticket.channel.getD "web"
  let env := environment.getD "production"
  match outcome with
  | .error e => (.error e, s)
  | .ok result =>
      let s1 := { s with
        response_duration_milliseconds :=
          s.response_duration_milliseconds ++ [duration_ms] }
      let s2 := { s1 with
        tickets_processed_total :=
          cinc s1.tickets_processed_total (category, env, channel) 1 }
      let s3 :=
        if result.auto_resolved.getD false then
          { s2 with
            tickets_resolved_auto_total :=
              cinc s2.tickets_resolved_auto_total
                (category, confidence_tier (result.confidence.getD 0)) 1 }
        else if result.escalated.getD false then
          { s2 with
            tickets_escalated_total :=
              cinc s2.tickets_escalated_total
                (category, result.escalation_reason.getD "unknown") 1 }
        else s2
      (.ok result, s3)

/-- The LLM-call wrapper, parameterized by (provider, model). On success:
observes the elapsed seconds into the latency histogram; if the result has
a `usage` key, increments the two token counters (token counts default 0)
and the cost counter by `calculate_llm_cost`; then increments the request
counter with status `success` and returns the result. On failure:
increments the request counter with status `error` and the error counter
labeled (provider, exception type name), logs, and re-raises. -/
def track_llm_call (provider model : String)
    (outcome : Except PyExc LLMResult) (duration_s : ℚ) (s : Registry) :
    Except PyExc LLMResult × Registry :=
  match outcome with
  | .ok result =>
      let s1 := { s with
        llm_response_duration_seconds :=
          hobserve s.llm_response_duration_seconds (provider, model)
            duration_s }
      let s2 :=
        match result.usage with
        | some usage =>
            let input_tokens := usage.input_tokens.getD 0
            let output_tokens := usage.output_tokens.getD 0
            let sA := { s1 with
              llm_tokens_total :=
                cinc s1.llm_tokens_total
                  (provider, model, "input") input_tokens }
            let sB := { sA with
              llm_tokens_total :=
                cinc sA.llm_tokens_total
                  (provider, model, "output") output_tokens }
            { sB with
              llm_api_cost_dollars :=
                cinc sB.llm_api_cost_dollars (provider, model)
                  (calculate_llm_cost provider model
                    input_tokens output_tokens).toRat }
        | none => s1
      let s3 := { s2 with
        llm_api_requests_total :=
          cinc s2.llm_api_requests_total (provider, model, "success") 1 }
      (.ok result, s3)
  | .error e =>
      let s1 := { s with
        llm_api_requests_total :=
          cinc s.llm_api_requests_total (provider, model, "error") 1 }
      let s2 := { s1 with
        llm_api_errors_total :=
          cinc s1.llm_api_errors_total (provider, e.typeName) 1 }
      (.error e, s2)

/-- The HTTP-request wrapper: on success increments the request counter
labeled (method, path, status code of the response) and returns the
response; on failure increments the same counter with the fixed status 500
and re-raises. -/
def track_http_request (request : Request)
    (outcome : Except PyExc HTTPResponse) (s : Registry) :
    Except PyExc HTTPResponse × Registry :=
  match outcome with
  | .ok response =>
      (.ok response,
        { s with
          http_requests_total :=
            cinc s.http_requests_total
              (request.method, request.path, response.status_code) 1 })
  | .error e =>
      (.error e,
        { s with
          http_requests_total :=
            cinc s.http_requests_total
              (request.method, request.path, 500) 1 })

/-- The budget/savings refresh: sets the four per-category monthly budget
gauges from the fixed table (in its iteration order), then sets the
support-staffing savings gauge to the constant 4000 and the net savings
gauge to that constant minus the constant total operational cost 2500. -/
def update_cost_budget_tracking (s : Registry) : Registry :=
  let g1 := gset s.cost_budget_monthly "llm_api" 1200
  let g2 := gset g1 "aws_infrastructure" 800
  let g3 := gset g2 "vector_db" 300
  let g4 := gset g3 "monitoring" 200
  let monthly_operational_cost : ℚ := 2500
  let monthly_support_savings : ℚ := 4000
  { s with cost_budget_monthly := g4,
           support_agent_cost_savings_dollars := monthly_support_savings,
           monthly_cost_savings_dollars :=
             monthly_support_savings - monthly_operational_cost }

/-! ## Helper lemmas -/

lemma flFPos_num_nonneg (a b : ℕ) : 0 ≤ (flFPos a b).num := by
  unfold flFPos
  split <;> exact Int.ofNat_nonneg _

lemma flF_num_nonneg (x : Frac) (h : 0 ≤ x.num) : 0 ≤ (flF x).num := by
  unfold flF
  split_ifs with h0 hpos
  · simp
  · exact flFPos_num_nonneg _ _
  · exact absurd (le_antisymm (not_lt.mp hpos) h) h0

lemma fofNat_num_nonneg (n : ℕ) : 0 ≤ (fofNat n).num :=
  flF_num_nonneg _ (Int.ofNat_nonneg n)

lemma fmul_num_nonneg {x y : Frac} (hx : 0 ≤ x.num) (hy : 0 ≤ y.num) :
    0 ≤ (fmul x y).num :=
  flF_num_nonneg _ (mul_nonneg hx hy)

lemma fadd_num_nonneg {x y : Frac} (hx : 0 ≤ x.num) (hy : 0 ≤ y.num) :
    0 ≤ (fadd x y).num :=
  flF_num_nonneg _
    (add_nonneg (mul_nonneg hx (Int.natCast_nonneg _))
      (mul_nonneg hy (Int.natCast_nonneg _)))

lemma Frac.toRat_nonneg {f : Frac} (h : 0 ≤ f.num) : 0 ≤ f.toRat := by
  unfold Frac.toRat
  apply div_nonneg
  · exact_mod_cast h
  · exact Nat.cast_nonneg _

lemma pricing_rates_nonneg (provider model : String) (r : Rates)
    (h : pricing provider model = some r) :
    0 ≤ r.input.num ∧ 0 ≤ r.output.num := by
  unfold pricing at h
  split_ifs at h
  all_goals first
    | exact Option.noConfusion h
    | (injection h with h2
       subst h2
       exact ⟨by decide, by decide⟩)

/-! ## Claim theorems -/

/-- C1: the cost model returns exact dollar values for priced models and
degrades to zero for unknown pairs: the cost of one million input tokens on
claude-sonnet-4 is exactly 3.0, the cost of one million output tokens is
exactly 15.0 (both computed through the binary64 pre-divided per-token
rates), and any (provider, model) pair absent from the price table yields
exactly 0.0; the function is total, so no call raises. -/
theorem calculate_llm_cost_spec :
    (calculate_llm_cost "anthropic" "claude-sonnet-4" 1000000 0).toRat = 3
  ∧ (calculate_llm_cost "anthropic" "claude-sonnet-4" 0 1000000).toRat = 15
  ∧ (calculate_llm_cost "unknown-provider" "x" 100 100).toRat = 0
  ∧ ∀ (provider model : String) (i o : ℕ),
      pricing provider model = none →
      (calculate_llm_cost provider model i o).toRat = 0 := by
  refine ⟨?_, ?_, ?_, ?_⟩
  · have h : calculate_llm_cost "anthropic" "claude-sonnet-4" 1000000 0
        = ⟨6755399441055744, 2251799813685248⟩ := by decide
    rw [h]
    unfold Frac.toRat
    norm_num
  · have h : calculate_llm_cost "anthropic" "claude-sonnet-4" 0 1000000
        = ⟨8444249301319680, 562949953421312⟩ := by decide
    rw [h]
    unfold Frac.toRat
    norm_num
  · have h : calculate_llm_cost "unknown-provider" "x" 100 100 = ⟨0, 1⟩ := by
      decide
    rw [h]
    unfold Frac.toRat
    norm_num
  · intro provider model i o hp
    unfold calculate_llm_cost
    rw [hp]
    unfold Frac.toRat
    norm_num

/-- Witness for C1: the unknown-pair hypothesis holds at the concrete pair
of the claim and the cost degrades to zero there. -/
theorem calculate_llm_cost_spec_witness :
    pricing "unknown-provider" "x" = none
  ∧ (calculate_llm_cost "unknown-provider" "x" 100 100).toRat = 0 :=
  ⟨by decide,
    calculate_llm_cost_spec.2.2.2 "unknown-provider" "x" 100 100 (by decide)⟩

/-- C2: whenever a ticket-processing result signals auto-resolution, the
auto-resolved counter at (category, tier of the confidence value) grows by
exactly one, and the tier boundaries are strict: 0.85 is medium, anything
strictly above 0.85 (such as 0.86) is high, anything strictly above 0.70
up to 0.85 is medium, and everything else is low. -/
theorem confidence_tier_boundaries (ticket : Ticket)
    (environment : Option String) (result : TicketResult) (duration_ms : ℚ)
    (s : Registry) (h : result.auto_resolved.getD false = true) :
    (track_ticket_processing ticket environment (.ok result) duration_ms
        s).2.tickets_resolved_auto_total
        (ticket.category.getD "general_inquiry",
          confidence_tier (result.confidence.getD 0))
      = s.tickets_resolved_auto_total
          (ticket.category.getD "general_inquiry",
            confidence_tier (result.confidence.getD 0)) + 1
  ∧ confidence_tier 0.85 = "medium"
  ∧ confidence_tier 0.86 = "high"
  ∧ (∀ c : ℚ, 0.85 < c → confidence_tier c = "high")
  ∧ (∀ c : ℚ, 0.70 < c → c ≤ 0.85 → confidence_tier c = "medium")
  ∧ (∀ c : ℚ, c ≤ 0.70 → confidence_tier c = "low") := by
  refine ⟨?_, ?_, ?_, ?_, ?_, ?_⟩
  · simp [track_ticket_processing, h, cinc]
  · norm_num [confidence_tier]
  · norm_num [confidence_tier]
  · intro c hc
    rw [confidence_tier, if_pos hc]
  · intro c hc1 hc2
    rw [confidence_tier, if_neg (not_lt.mpr hc2), if_pos hc1]
  · intro c hc
    rw [confidence_tier, if_neg (not_lt.mpr (hc.trans (by norm_num))),
      if_neg (not_lt.mpr hc)]

/-- A concrete ticket used by witnesses. -/
def exampleTicket : Ticket :=
  { category := some "technical_support", channel := some "email" }

/-- A concrete auto-resolved result with confidence 0.9, used by the C2
witness. -/
def autoResolvedResult : TicketResult :=
  { auto_resolved := some true, confidence := some 0.9,
    escalated := none, escalation_reason := none }

/-- Witness for C2: the auto-resolution hypothesis holds at a concrete
result and the conclusion follows at concrete inputs. -/
theorem confidence_tier_boundaries_witness :
    autoResolvedResult.auto_resolved.getD false = true
  ∧ ((track_ticket_processing exampleTicket (some "production")
        (.ok autoResolvedResult) 1500 Registry.init).2.tickets_resolved_auto_total
        (exampleTicket.category.getD "general_inquiry",
          confidence_tier (autoResolvedResult.confidence.getD 0))
      = Registry.init.tickets_resolved_auto_total
          (exampleTicket.category.getD "general_inquiry",
            confidence_tier (autoResolvedResult.confidence.getD 0)) + 1
    ∧ confidence_tier 0.85 = "medium"
    ∧ confidence_tier 0.86 = "high"
    ∧ (∀ c : ℚ, 0.85 < c → confidence_tier c = "high")
    ∧ (∀ c : ℚ, 0.70 < c → c ≤ 0.85 → confidence_tier c = "medium")
    ∧ (∀ c : ℚ, c ≤ 0.70 → confidence_tier c = "low")) :=
  ⟨rfl,
    confidence_tier_boundaries exampleTicket (some "production")
      autoResolvedResult 1500 Registry.init rfl⟩

/-- C3: when the wrapped ticket-processing operation raises, the wrapper
re-raises the same exception and leaves the whole registry unchanged: no
histogram observation, no counter increment. -/
theorem track_ticket_processing_error_propagates (ticket : Ticket)
    (environment : Option String) (e : PyExc) (duration_ms : ℚ)
    (s : Registry) :
    track_ticket_processing ticket environment (.error e) duration_ms s
      = (.error e, s) := rfl

/-- C4: when the wrapped LLM call raises, the wrapper increments the
request counter at (provider, model, error) exactly once and the error
counter at (provider, exception type name) exactly once, leaves the
latency histogram, the token counters, the cost counter and the
success-status request counter unchanged, and re-raises the same
exception. -/
theorem track_llm_call_error_path (provider model : String) (e : PyExc)
    (duration_s : ℚ) (s : Registry) :
    (track_llm_call provider model (.error e) duration_s s).1
        = .error e
  ∧ (track_llm_call provider model (.error e) duration_s
        s).2.llm_api_requests_total (provider, model, "error")
      = s.llm_api_requests_total (provider, model, "error") + 1
  ∧ (track_llm_call provider model (.error e) duration_s
        s).2.llm_api_errors_total (provider, e.typeName)
      = s.llm_api_errors_total (provider, e.typeName) + 1
  ∧ (∀ l, l ≠ (provider, model, "error") →
      (track_llm_call provider model (.error e) duration_s
          s).2.llm_api_requests_total l = s.llm_api_requests_total l)
  ∧ (∀ l, l ≠ (provider, e.typeName) →
      (track_llm_call provider model (.error e) duration_s
          s).2.llm_api_errors_total l = s.llm_api_errors_total l)
  ∧ (track_llm_call provider model (.error e) duration_s
        s).2.llm_response_duration_seconds = s.llm_response_duration_seconds
  ∧ (track_llm_call provider model (.error e) duration_s
        s).2.llm_tokens_total = s.llm_tokens_total
  ∧ (track_llm_call provider model (.error e) duration_s
        s).2.llm_api_cost_dollars = s.llm_api_cost_dollars
  ∧ (track_llm_call provider model (.error e) duration_s
        s).2.llm_api_requests_total (provider, model, "success")
      = s.llm_api_requests_total (provider, model, "success") := by
  refine ⟨rfl, ?_, ?_, ?_, ?_, rfl, rfl, rfl, ?_⟩
  · simp [track_llm_call, cinc]
  · simp [track_llm_call, cinc]
  · intro l hl
    simp [track_llm_call, cinc, hl]
  · intro l hl
    simp [track_llm_call, cinc, hl]
  · simp [track_llm_call, cinc]

/-- A concrete exception used by witnesses. -/
def exampleExc : PyExc := { typeName := "TimeoutError", message := "timed out" }

/-- Witness for C4: the error path evaluated at concrete inputs. -/
theorem track_llm_call_error_path_witness :
    (track_llm_call "anthropic" "claude-sonnet-4" (.error exampleExc) 2
        Registry.init).1 = .error exampleExc
  ∧ (track_llm_call "anthropic" "claude-sonnet-4" (.error exampleExc) 2
        Registry.init).2.llm_api_requests_total
        ("anthropic", "claude-sonnet-4", "error")
      = Registry.init.llm_api_requests_total
          ("anthropic", "claude-sonnet-4", "error") + 1
  ∧ (track_llm_call "anthropic" "claude-sonnet-4" (.error exampleExc) 2
        Registry.init).2.llm_api_errors_total
        ("anthropic", exampleExc.typeName)
      = Registry.init.llm_api_errors_total
          ("anthropic", exampleExc.typeName) + 1
  ∧ (∀ l, l ≠ ("anthropic", "claude-sonnet-4", "error") →
      (track_llm_call "anthropic" "claude-sonnet-4" (.error exampleExc) 2
          Registry.init).2.llm_api_requests_total l
        = Registry.init.llm_api_requests_total l)
  ∧ (∀ l, l ≠ ("anthropic", exampleExc.typeName) →
      (track_llm_call "anthropic" "claude-sonnet-4" (.error exampleExc) 2
          Registry.init).2.llm_api_errors_total l
        = Registry.init.llm_api_errors_total l)
  ∧ (track_llm_call "anthropic" "claude-sonnet-4" (.error exampleExc) 2
        Registry.init).2.llm_response_duration_seconds
      = Registry.init.llm_response_duration_seconds
  ∧ (track_llm_call "anthropic" "claude-sonnet-4" (.error exampleExc) 2
        Registry.init).2.llm_tokens_total = Registry.init.llm_tokens_total
  ∧ (track_llm_call "anthropic" "claude-sonnet-4" (.error exampleExc) 2
        Registry.init).2.llm_api_cost_dollars
      = Registry.init.llm_api_cost_dollars
  ∧ (track_llm_call "anthropic" "claude-sonnet-4" (.error exampleExc) 2
        Registry.init).2.llm_api_requests_total
        ("anthropic", "claude-sonnet-4", "success")
      = Registry.init.llm_api_requests_total
          ("anthropic", "claude-sonnet-4", "success") :=
  track_llm_call_error_path "anthropic" "claude-sonnet-4" exampleExc 2
    Registry.init

/-- C5: on a successful LLM call the wrapper observes the elapsed seconds
into the (provider, model) latency histogram and increments the request
counter with status success; exactly when the result carries a usage
mapping, the two token counters and the cost counter grow by the token
counts and by the calculated cost; the result is returned unchanged. -/
theorem track_llm_call_success_path (provider model : String)
    (result : LLMResult) (duration_s : ℚ) (s : Registry) :
    (track_llm_call provider model (.ok result) duration_s s).1 = .ok result
  ∧ (track_llm_call provider model (.ok result) duration_s
        s).2.llm_response_duration_seconds (provider, model)
      = s.llm_response_duration_seconds (provider, model) ++ [duration_s]
  ∧ (track_llm_call provider model (.ok result) duration_s
        s).2.llm_api_requests_total (provider, model, "success")
      = s.llm_api_requests_total (provider, model, "success") + 1
  ∧ (∀ u, result.usage = some u →
      (track_llm_call provider model (.ok result) duration_s
          s).2.llm_tokens_total (provider, model, "input")
        = s.llm_tokens_total (provider, model, "input")
          + (u.input_tokens.getD 0 : ℚ)
      ∧ (track_llm_call provider model (.ok result) duration_s
            s).2.llm_tokens_total (provider, model, "output")
          = s.llm_tokens_total (provider, model, "output")
            + (u.output_tokens.getD 0 : ℚ)
      ∧ (track_llm_call provider model (.ok result) duration_s
            s).2.llm_api_cost_dollars (provider, model)
          = s.llm_api_cost_dollars (provider, model)
            + (calculate_llm_cost provider model (u.input_tokens.getD 0)
                (u.output_tokens.getD 0)).toRat)
  ∧ (result.usage = none →
      (track_llm_call provider model (.ok result) duration_s
          s).2.llm_tokens_total = s.llm_tokens_total
      ∧ (track_llm_call provider model (.ok result) duration_s
            s).2.llm_api_cost_dollars = s.llm_api_cost_dollars) := by
  rcases hu : result.usage with _ | u
  · refine ⟨?_, ?_, ?_, ?_, ?_⟩
    · simp [track_llm_call, hu]
    · simp [track_llm_call, hu, hobserve]
    · simp [track_llm_call, hu, cinc]
    · intro u hsome
      exact Option.noConfusion hsome
    · intro _
      exact ⟨by simp [track_llm_call, hu], by simp [track_llm_call, hu]⟩
  · refine ⟨?_, ?_, ?_, ?_, ?_⟩
    · simp [track_llm_call, hu]
    · simp [track_llm_call, hu, hobserve]
    · simp [track_llm_call, hu, cinc]
    · intro u2 hsome
      injection hsome with h2
      subst h2
      refine ⟨?_, ?_, ?_⟩ <;> simp [track_llm_call, hu, cinc]
    · intro hnone
      exact Option.noConfusion hnone

/-- A concrete successful LLM result with usage counts, used by the C5
witness. -/
def exampleLLMResult : LLMResult :=
  { response := "Here is the answer", usage := some ⟨some 150, some 300⟩ }

/-- Witness for C5: the success path evaluated at concrete inputs, with the
usage hypothesis discharged at the concrete usage mapping. -/
theorem track_llm_call_success_path_witness :
    exampleLLMResult.usage = some ⟨some 150, some 300⟩
  ∧ ((track_llm_call "anthropic" "claude-sonnet-4" (.ok exampleLLMResult) 2
        Registry.init).1 = .ok exampleLLMResult
    ∧ (track_llm_call "anthropic" "claude-sonnet-4" (.ok exampleLLMResult) 2
          Registry.init).2.llm_response_duration_seconds
          ("anthropic", "claude-sonnet-4")
        = Registry.init.llm_response_duration_seconds
            ("anthropic", "claude-sonnet-4") ++ [2]
    ∧ (track_llm_call "anthropic" "claude-sonnet-4" (.ok exampleLLMResult) 2
          Registry.init).2.llm_api_requests_total
          ("anthropic", "claude-sonnet-4", "success")
        = Registry.init.llm_api_requests_total
            ("anthropic", "claude-sonnet-4", "success") + 1
    ∧ (∀ u, exampleLLMResult.usage = some u →
        (track_llm_call "anthropic" "claude-sonnet-4" (.ok exampleLLMResult)
            2 Registry.init).2.llm_tokens_total
            ("anthropic", "claude-sonnet-4", "input")
          = Registry.init.llm_tokens_total
              ("anthropic", "claude-sonnet-4", "input")
            + (u.input_tokens.getD 0 : ℚ)
        ∧ (track_llm_call "anthropic" "claude-sonnet-4" (.ok exampleLLMResult)
              2 Registry.init).2.llm_tokens_total
              ("anthropic", "claude-sonnet-4", "output")
            = Registry.init.llm_tokens_total
                ("anthropic", "claude-sonnet-4", "output")
              + (u.output_tokens.getD 0 : ℚ)
        ∧ (track_llm_call "anthropic" "claude-sonnet-4" (.ok exampleLLMResult)
              2 Registry.init).2.llm_api_cost_dollars
              ("anthropic", "claude-sonnet-4")
            = Registry.init.llm_api_cost_dollars
                ("anthropic", "claude-sonnet-4")
              + (calculate_llm_cost "anthropic" "claude-sonnet-4"
                  (u.input_tokens.getD 0) (u.output_tokens.getD 0)).toRat)
    ∧ (exampleLLMResult.usage = none →
        (track_llm_call "anthropic" "claude-sonnet-4" (.ok exampleLLMResult)
            2 Registry.init).2.llm_tokens_total
          = Registry.init.llm_tokens_total
        ∧ (track_llm_call "anthropic" "claude-sonnet-4" (.ok exampleLLMResult)
              2 Registry.init).2.llm_api_cost_dollars
            = Registry.init.llm_api_cost_dollars)) :=
  ⟨rfl,
    track_llm_call_success_path "anthropic" "claude-sonnet-4"
      exampleLLMResult 2 Registry.init⟩

/-- C6: the HTTP wrapper increments the request counter labeled with the
method, the path and the status code of the response on success, or with
the fixed status 500 on failure, touching no other label combination, and
returns the response unchanged or re-raises the exception. -/
theorem track_http_request_status_labels (request : Request)
    (response : HTTPResponse) (e : PyExc) (s : Registry) :
    (track_http_request request (.ok response) s).1 = .ok response
  ∧ (track_http_request request (.ok response) s).2.http_requests_total
        (request.method, request.path, response.status_code)
      = s.http_requests_total
          (request.method, request.path, response.status_code) + 1
  ∧ (∀ l, l ≠ (request.method, request.path, response.status_code) →
      (track_http_request request (.ok response) s).2.http_requests_total l
        = s.http_requests_total l)
  ∧ (track_http_request request (.error e) s).1 = .error e
  ∧ (track_http_request request (.error e) s).2.http_requests_total
        (request.method, request.path, 500)
      = s.http_requests_total (request.method, request.path, 500) + 1
  ∧ (∀ l, l ≠ (request.method, request.path, 500) →
      (track_http_request request (.error e) s).2.http_requests_total l
        = s.http_requests_total l) := by
  refine ⟨rfl, ?_, ?_, rfl, ?_, ?_⟩
  · simp [track_http_request, cinc]
  · intro l hl
    simp [track_http_request, cinc, hl]
  · simp [track_http_request, cinc]
  · intro l hl
    simp [track_http_request, cinc, hl]

/-- A concrete request and response pair used by the C6 witness. -/
def exampleRequest : Request := { method := "GET", path := "/health" }

/-- A concrete HTTP response used by the C6 witness. -/
def exampleResponse : HTTPResponse := { status_code := 200, body := "ok" }

/-- Witness for C6: both paths of the HTTP wrapper at concrete inputs. -/
theorem track_http_request_status_labels_witness :
    (track_http_request exampleRequest (.ok exampleResponse) Registry.init).1
        = .ok exampleResponse
  ∧ (track_http_request exampleRequest (.ok exampleResponse)
        Registry.init).2.http_requests_total
        (exampleRequest.method, exampleRequest.path,
          exampleResponse.status_code)
      = Registry.init.http_requests_total
          (exampleRequest.method, exampleRequest.path,
            exampleResponse.status_code) + 1
  ∧ (∀ l, l ≠ (exampleRequest.method, exampleRequest.path,
        exampleResponse.status_code) →
      (track_http_request exampleRequest (.ok exampleResponse)
          Registry.init).2.http_requests_total l
        = Registry.init.http_requests_total l)
  ∧ (track_http_request exampleRequest (.error exampleExc) Registry.init).1
        = .error exampleExc
  ∧ (track_http_request exampleRequest (.error exampleExc)
        Registry.init).2.http_requests_total
        (exampleRequest.method, exampleRequest.path, 500)
      = Registry.init.http_requests_total
          (exampleRequest.method, exampleRequest.path, 500) + 1
  ∧ (∀ l, l ≠ (exampleRequest.method, exampleRequest.path, 500) →
      (track_http_request exampleRequest (.error exampleExc)
          Registry.init).2.http_requests_total l
        = Registry.init.http_requests_total l) :=
  track_http_request_status_labels exampleRequest exampleResponse exampleExc
    Registry.init

/-- Value of a counter time series after a run of increments: the starting
value plus the sum of exactly the increments addressed to that label
combination. -/
lemma runIncs_value {L : Type} [DecidableEq L] (incs : List (L × ℚ))
    (f : L → ℚ) (l : L) :
    runIncs f incs l
      = f l + ((incs.filter fun p => decide (p.1 = l)).map Prod.snd).sum := by
  induction incs generalizing f with
  | nil => simp [runIncs]
  | cons p t ih =>
      have hstep : runIncs f (p :: t) l = runIncs (cinc f p.1 p.2) t l := rfl
      rw [hstep, ih]
      by_cases hpl : p.1 = l
      · subst hpl
        simp [cinc, List.filter_cons]
        ring
      · have hNe : l ≠ p.1 := fun hh => hpl hh.symm
        simp [cinc, hNe, hpl, List.filter_cons]

/-- C7: for a counter time series started at zero, the exported value after
any finite run of increments is the exact sum of the increments addressed
to that label combination, and when the later increments are nonnegative
(counters reject negative increments) the value at an earlier snapshot
never exceeds the value at a later one. -/
theorem counter_exact_sum_monotone {L : Type} [DecidableEq L]
    (incs xs ys : List (L × ℚ)) (l : L) (f : L → ℚ)
    (h : ∀ p ∈ ys, 0 ≤ p.2) :
    runIncs (fun _ => 0) incs l
        = ((incs.filter fun p => decide (p.1 = l)).map Prod.snd).sum
  ∧ runIncs f xs l ≤ runIncs f (xs ++ ys) l := by
  constructor
  · rw [runIncs_value]
    simp
  · have happ : runIncs f (xs ++ ys) l = runIncs (runIncs f xs) ys l := by
      simp [runIncs, List.foldl_append]
    rw [happ, runIncs_value ys]
    have hsum : 0 ≤ ((ys.filter fun p => decide (p.1 = l)).map Prod.snd).sum := by
      apply List.sum_nonneg
      intro x hx
      rcases List.mem_map.mp hx with ⟨p, hp, rfl⟩
      exact h p (List.mem_of_mem_filter hp)
    linarith

/-- Witness for C7: a concrete run of increments on string labels, with
the nonnegativity hypothesis discharged by evaluation. -/
theorem counter_exact_sum_monotone_witness :
    (∀ p ∈ ([("b", (5 : ℚ)), ("a", 1)] : List (String × ℚ)), 0 ≤ p.2)
  ∧ (runIncs (fun _ => 0)
        ([("a", 2), ("b", 5), ("a", 1)] : List (String × ℚ)) "a"
        = ((([("a", 2), ("b", 5), ("a", 1)] : List (String × ℚ)).filter
            fun p => decide (p.1 = "a")).map Prod.snd).sum
    ∧ runIncs (fun _ => 0) ([("a", 2)] : List (String × ℚ)) "a"
        ≤ runIncs (fun _ => 0)
            (([("a", 2)] : List (String × ℚ)) ++ [("b", 5), ("a", 1)]) "a") :=
  ⟨by intro p hp; fin_cases hp <;> norm_num,
    counter_exact_sum_monotone [("a", 2), ("b", 5), ("a", 1)] [("a", 2)]
      [("b", 5), ("a", 1)] "a" (fun _ => 0)
      (by intro p hp; fin_cases hp <;> norm_num)⟩

/-- C8: every budget/savings refresh sets the four per-category monthly
budget gauges to the fixed table values, the support-staffing savings
gauge to 4000, and the net savings gauge to 4000 minus 2500, that is 1500,
independently of any prior registry state. -/
theorem update_cost_budget_tracking_values (s : Registry) :
    (update_cost_budget_tracking s).cost_budget_monthly "llm_api" = 1200
  ∧ (update_cost_budget_tracking s).cost_budget_monthly "aws_infrastructure"
      = 800
  ∧ (update_cost_budget_tracking s).cost_budget_monthly "vector_db" = 300
  ∧ (update_cost_budget_tracking s).cost_budget_monthly "monitoring" = 200
  ∧ (update_cost_budget_tracking s).support_agent_cost_savings_dollars = 4000
  ∧ (update_cost_budget_tracking s).monthly_cost_savings_dollars
      = 4000 - 2500
  ∧ (update_cost_budget_tracking s).monthly_cost_savings_dollars = 1500 := by
  refine ⟨?_, ?_, ?_, ?_, ?_, ?_, ?_⟩ <;>
    (simp [update_cost_budget_tracking, gset]; try norm_num)

/-- C9: a result that signals auto-resolution with no confidence key is
classified with the default confidence 0, hence tier low, and increments
the auto-resolved counter at (category, low); and whenever auto-resolution
is signalled — in particular when the escalated flag is also set — the
escalated counter is left entirely unchanged. -/
theorem auto_resolved_defaults (ticket : Ticket)
    (environment : Option String) (result : TicketResult) (duration_ms : ℚ)
    (s : Registry) (h : result.auto_resolved.getD false = true) :
    (track_ticket_processing ticket environment (.ok result) duration_ms
        s).2.tickets_escalated_total = s.tickets_escalated_total
  ∧ (result.confidence = none →
      confidence_tier (result.confidence.getD 0) = "low"
      ∧ (track_ticket_processing ticket environment (.ok result) duration_ms
            s).2.tickets_resolved_auto_total
            (ticket.category.getD "general_inquiry", "low")
          = s.tickets_resolved_auto_total
              (ticket.category.getD "general_inquiry", "low") + 1) := by
  constructor
  · simp [track_ticket_processing, h]
  · intro hc
    constructor
    · rw [hc]
      norm_num [confidence_tier]
    · norm_num [track_ticket_processing, h, hc, cinc, confidence_tier]

/-- A concrete result with auto_resolved and escalated both set and no
confidence key, used by the C9 witness. -/
def noConfidenceResult : TicketResult :=
  { auto_resolved := some true, confidence := none,
    escalated := some true, escalation_reason := some "handoff" }

/-- Witness for C9: the defaults at a concrete result carrying both flags
and no confidence key. -/
theorem auto_resolved_defaults_witness :
    noConfidenceResult.auto_resolved.getD false = true
  ∧ ((track_ticket_processing exampleTicket (some "production")
        (.ok noConfidenceResult) 800 Registry.init).2.tickets_escalated_total
        = Registry.init.tickets_escalated_total
    ∧ (noConfidenceResult.confidence = none →
        confidence_tier (noConfidenceResult.confidence.getD 0) = "low"
        ∧ (track_ticket_processing exampleTicket (some "production")
              (.ok noConfidenceResult) 800
              Registry.init).2.tickets_resolved_auto_total
              (exampleTicket.category.getD "general_inquiry", "low")
            = Registry.init.tickets_resolved_auto_total
                (exampleTicket.category.getD "general_inquiry", "low") + 1)) :=
  ⟨rfl,
    auto_resolved_defaults exampleTicket (some "production")
      noConfidenceResult 800 Registry.init rfl⟩

/-- C10: the cost model never yields a negative value — unpriced pairs
yield zero and priced pairs a sum of products of nonnegative binary64
rates and nonnegative token counts — so the cost counter increment on the
LLM success path never decreases the counter and never trips the
negative-increment rejection. -/
theorem calculate_llm_cost_nonneg (provider model : String)
    (input_tokens output_tokens : ℕ) :
    0 ≤ (calculate_llm_cost provider model input_tokens output_tokens).toRat
  ∧ ∀ (result : LLMResult) (duration_s : ℚ) (s : Registry)
      (l : String × String),
      s.llm_api_cost_dollars l
        ≤ (track_llm_call provider model (.ok result) duration_s
            s).2.llm_api_cost_dollars l := by
  have hmain : ∀ i o : ℕ,
      0 ≤ (calculate_llm_cost provider model i o).toRat := by
    intro i o
    rcases hp : pricing provider model with _ | r
    · simp [calculate_llm_cost, hp, Frac.toRat]
    · have hr := pricing_rates_nonneg provider model r hp
      apply Frac.toRat_nonneg
      simp only [calculate_llm_cost, hp]
      exact fadd_num_nonneg (fmul_num_nonneg (fofNat_num_nonneg _) hr.1)
        (fmul_num_nonneg (fofNat_num_nonneg _) hr.2)
  refine ⟨hmain _ _, ?_⟩
  intro result duration_s s l
  rcases hu : result.usage with _ | u
  · simp [track_llm_call, hu]
  · simp only [track_llm_call, hu, cinc]
    split
    · have := hmain (u.input_tokens.getD 0) (u.output_tokens.getD 0)
      linarith
    · exact le_refl _

end MetricsExporter
